import Mathlib

/-!
Verification of the CashoutStudio ECU communication framework.

This development gives a shallow embedding of the protocol layer of the
repository (`cashout_studio/protocols/*.py`, `cashout_studio/ecu/__init__.py`,
`cashout_studio/bridge/__init__.py`, `cashout_studio/utils/__init__.py`) and
proves or refutes the specification claims about it.

Modelling conventions:
* Bytes are `Nat` values; byte strings are `List Nat`.  Hypotheses record the
  ranges (`< 256`, `< 2 ^ 16`, `< 2 ^ 32`) under which the Python code would
  not raise while packing.
* A serial port is a finite byte stream `List Nat`; reading `n` bytes returns
  `take n` (a short read when the stream is exhausted, like a timed-out
  `serial.read`).
* Each operation is modelled as a pure function returning the frames written
  to the transport together with its result, so that transcript-level claims
  ("no frame is sent") can be stated.
* Exceptions are modelled with `Except String`, the raised message being the
  message of the corresponding Python `Exception`.
-/

/-- Big-endian 4-byte packing, `struct.pack` with format `>I`.
Python raises `struct.error` for `n ≥ 2 ^ 32`; theorems carry that bound as a
hypothesis. -/
def pack32 (n : Nat) : List Nat :=
  [n / 16777216 % 256, n / 65536 % 256, n / 256 % 256, n % 256]

/-- Big-endian 2-byte packing, `struct.pack` with format `>H` (valid for
`n < 2 ^ 16`). -/
def pack16 (n : Nat) : List Nat :=
  [n / 256 % 256, n % 256]

/-- Big-endian 3-byte packing, `int.to_bytes(3, "big")` (valid for
`n < 2 ^ 24`). -/
def pack24 (n : Nat) : List Nat :=
  [n / 65536 % 256, n / 256 % 256, n % 256]

/-! ### Denso SH705x protocol constants (`denso_sh705x.py`) -/

def densoCmdReadRom : Nat := 0x01
def densoCmdReadRam : Nat := 0x02
def densoCmdWriteRom : Nat := 0x03
def densoCmdWriteRam : Nat := 0x04
def densoCmdEraseSector : Nat := 0x05
def densoCmdChecksum : Nat := 0x06
def densoCmdReadDtc : Nat := 0x08

def densoRespAck : Nat := 0x06
def densoRespNak : Nat := 0x15
def densoRespData : Nat := 0x80

/-- `DensoSH705xProtocol.RAM_BASE`; addresses below it are classified ROM. -/
def densoRamBase : Nat := 0x05FFFF00

/-- `DensoSH705xProtocol._calculate_checksum`:
`(256 - (sum(data) % 256)) % 256`. -/
def densoChecksum (data : List Nat) : Nat :=
  (256 - data.sum % 256) % 256

/-- `DensoSH705xProtocol._build_frame`: `[STX] [LEN] [CMD] [DATA...] [CHK] [ETX]`
with `STX = 0x02`, `ETX = 0x03`, `LEN = len(frame_data)` and
`CHK = _calculate_checksum(frame_data)` where `frame_data = [CMD] + DATA`.
Valid for `LEN ≤ 255` and byte-valued contents. -/
def densoBuildFrame (command : Nat) (data : List Nat) : List Nat :=
  let frameData := command :: data
  2 :: frameData.length :: frameData ++ [densoChecksum frameData, 3]

/-- The STX hunt loop at the top of `DensoSH705xProtocol._read_response`:
read single bytes, discarding them, until `0x02` is seen; an empty read (the
stream is exhausted) aborts with no frame. -/
def densoHuntStx : List Nat → Option (List Nat)
  | [] => none
  | b :: rest => if b = 2 then some rest else densoHuntStx rest

/-- `DensoSH705xProtocol._read_response` on a byte stream.  Returns the
accepted `frame_data` (or `none` for the Python `b''` "no frame" result)
together with the unread remainder of the stream.  After the STX hunt it reads
one length byte, then `LEN + 2` bytes, requires the trailing byte to be ETX
and the received checksum to equal the recomputed one; any failure yields no
frame. -/
def densoReadResponse (stream : List Nat) : Option (List Nat) × List Nat :=
  match densoHuntStx stream with
  | none => (none, [])
  | some s1 =>
    match s1 with
    | [] => (none, [])
    | len :: s2 =>
      if len = 0 then (none, s2)
      else
        let remaining := s2.take (len + 2)
        let rest := s2.drop (len + 2)
        if remaining.length = len + 2 then
          match remaining.drop len with
          | [c, e] =>
            if e = 3 then
              if c = densoChecksum (remaining.take len) then
                (some (remaining.take len), rest)
              else (none, rest)
            else (none, rest)
          | _ => (none, rest)
        else (none, rest)

example : densoReadResponse (densoBuildFrame 6 [1, 2]) = (some [6, 1, 2], []) := by
  decide

example : densoReadResponse [2, 1, 6, 0, 3, 9, 9] = (none, [9, 9]) := by
  decide

/-- Decidable equality for `Except`, so that concrete outcomes can be checked
by `decide`. -/
instance {ε α : Type} [DecidableEq ε] [DecidableEq α] : DecidableEq (Except ε α) :=
  fun x y =>
    match x, y with
    | .ok a, .ok b =>
      if h : a = b then isTrue (by rw [h]) else isFalse (by simp [h])
    | .error a, .error b =>
      if h : a = b then isTrue (by rw [h]) else isFalse (by simp [h])
    | .ok _, .error _ => isFalse (by simp)
    | .error _, .ok _ => isFalse (by simp)

/-! ### Denso SH705x memory operations -/

/-- `ECUConfig.retries` default value (`ecu/__init__.py`). -/
def ecuConfigDefaultRetries : Nat := 3

/-- Sector size used by `DensoSH705xProtocol._erase_sector` ("4KB sectors
typical for SH705x"). -/
def densoSectorSize : Nat := 0x1000

/-- The sector-alignment expression of `_erase_sector` exactly as written in
the source: `address & ~(sector_size - 1)` on Python's arbitrary-precision
integers (two's-complement bitwise AND with a negative mask). -/
def densoSectorAddressBits (address : Nat) : Int :=
  Int.land (Int.ofNat address) (~~~ ((densoSectorSize : Int) - 1))

/-- Executable form of the sector-alignment computation, proved equal to
`densoSectorAddressBits` in `densoSectorAddressBits_eq` below. -/
def densoSectorAddress (address : Nat) : Nat :=
  address - address % densoSectorSize

/-- The `response and response[0] == self.RESP_ACK` test of
`_erase_sector` / `write_data` / `clear_dtc_codes`. -/
def densoIsAck : Option (List Nat) → Bool
  | some (b :: _) => b == densoRespAck
  | _ => false

/-- The `response and response[0] == RESP_DATA and len(response) >= 5` test
of `_verify_checksum`. -/
def densoIsDataAtLeast5 : Option (List Nat) → Bool
  | some (b :: t) => b == densoRespData && decide (t.length + 1 ≥ 5)
  | _ => false

/-- `DensoSH705xProtocol._erase_sector`: build and send the erase frame for
the aligned sector address, then require an ACK response.  Returns the
success flag, the frames written, and the unread stream. -/
def densoEraseSector (address : Nat) (stream : List Nat) :
    Bool × List (List Nat) × List Nat :=
  let frame := densoBuildFrame densoCmdEraseSector (pack32 (densoSectorAddress address))
  let pr := densoReadResponse stream
  (densoIsAck pr.1, [frame], pr.2)

/-- `DensoSH705xProtocol._verify_checksum`: send a `CMD_CHECKSUM` request and
return `True` for any `RESP_DATA` response of length at least 5 — the
device-reported checksum bytes are never compared against anything (the
source comment reads "Simplified - actual implementation would compare
checksums"). -/
def densoVerifyChecksum (address length : Nat) (stream : List Nat) :
    Bool × List (List Nat) × List Nat :=
  let frame := densoBuildFrame densoCmdChecksum (pack32 address ++ pack16 length)
  let pr := densoReadResponse stream
  (densoIsDataAtLeast5 pr.1, [frame], pr.2)

/-- Result of `DensoSH705xProtocol.read_data`: frames written to the serial
port, the returned bytes or raised exception, and the unread stream (used to
show that no second read attempt is made). -/
structure DensoReadOutcome where
  writes : List (List Nat)
  result : Except String (List Nat)
  leftover : List Nat
  deriving DecidableEq, Repr

/-- The response handling of `read_data`: a `RESP_DATA` frame yields
`response[3:3+data_length]` where `data_length` is the big-endian 16-bit
word at `response[1:3]` (a response shorter than 3 bytes makes
`struct.unpack` raise); a `RESP_NAK` or anything else raises; an empty
response raises `"No response from ECU"`. -/
def densoDecodeReadResult : Option (List Nat) → Except String (List Nat)
  | some (r0 :: r1 :: r2 :: rest2) =>
    if r0 = densoRespData then
      if rest2.length ≥ r1 * 256 + r2 then .ok (rest2.take (r1 * 256 + r2))
      else .error "Incomplete data received"
    else if r0 = densoRespNak then .error "ECU returned NAK"
    else .error "Unexpected response code"
  | some (r0 :: _) =>
    if r0 = densoRespData then .error "struct.error"
    else if r0 = densoRespNak then .error "ECU returned NAK"
    else .error "Unexpected response code"
  | _ => .error "No response from ECU"

/-- `DensoSH705xProtocol.read_data`.  Classifies the address against
`RAM_BASE` only (no memory-map validation), always sends the read frame, and
performs exactly one `_read_response` call.  Valid for `address < 2 ^ 32` and
`length < 2 ^ 16` (otherwise `struct.pack` raises before the frame is sent). -/
def densoReadData (connected : Bool) (address length : Nat) (stream : List Nat) :
    DensoReadOutcome :=
  if !connected then
    { writes := [], result := .error "Not connected to ECU", leftover := stream }
  else
    let cmd := if address < densoRamBase then densoCmdReadRom else densoCmdReadRam
    let frame := densoBuildFrame cmd (pack32 address ++ pack16 length)
    let pr := densoReadResponse stream
    { writes := [frame], result := densoDecodeReadResult pr.1, leftover := pr.2 }

/-- Result of `DensoSH705xProtocol.write_data`: frames written and the
returned boolean (or the not-connected exception). -/
structure DensoWriteOutcome where
  writes : List (List Nat)
  result : Except String Bool
  deriving DecidableEq, Repr

/-- `DensoSH705xProtocol.write_data`.  ROM-class addresses (below `RAM_BASE`)
get a sector erase first, but an erase failure only logs "Sector erase
failed, attempting write anyway" — the write frame is sent regardless.  On an
ACK the result is whatever `_verify_checksum` returns; any non-ACK response
(a NAK or anything else, which the source only logs differently) yields
`False`.  Valid for `address < 2 ^ 32`, byte-valued `data`, and
`len(data) + 7 ≤ 255`. -/
def densoWriteData (connected : Bool) (address : Nat) (data : List Nat)
    (stream : List Nat) : DensoWriteOutcome :=
  if !connected then
    { writes := [], result := .error "Not connected to ECU" }
  else
    let cmd := if address < densoRamBase then densoCmdWriteRom else densoCmdWriteRam
    let ep :=
      if cmd = densoCmdWriteRom then
        let e := densoEraseSector address stream
        (e.2.1, e.2.2)
      else ([], stream)
    let frame := densoBuildFrame cmd (pack32 address ++ pack16 data.length ++ data)
    let pr := densoReadResponse ep.2
    if densoIsAck pr.1 then
      let v := densoVerifyChecksum address data.length pr.2
      { writes := ep.1 ++ [frame] ++ v.2.1, result := .ok v.1 }
    else
      { writes := ep.1 ++ [frame], result := .ok false }

example :
    (densoWriteData true 0x05FFFF00 [0xAA]
      ([2, 1, 6, 250, 3] ++ [2, 5, 0x80, 0x00, 0x02, 0xBE, 0xEF, 209, 3])).result
      = .ok true := by
  decide

/-! ### DTC formatting (`get_dtc_codes`, `utils.parse_dtc_code`) -/

/-- Uppercase hexadecimal digit character, as produced by Python's `"%X"`. -/
def hexDigitChar (n : Nat) : Char :=
  if n < 10 then Char.ofNat (48 + n) else Char.ofNat (55 + n)

/-- The four digit characters of Python's `f"{n:04X}"` for `n < 2 ^ 16`
(uppercase, zero-padded to width 4). -/
def hex4Chars (n : Nat) : List Char :=
  [hexDigitChar (n / 4096 % 16), hexDigitChar (n / 256 % 16),
   hexDigitChar (n / 16 % 16), hexDigitChar (n % 16)]

/-- Domain letter `['P', 'C', 'B', 'U'][(code >> 14) & 0x03]` used by the
Denso DTC formatter. -/
def densoDtcLetter (code : Nat) : Char :=
  match code / 16384 % 4 with
  | 0 => 'P'
  | 1 => 'C'
  | 2 => 'B'
  | _ => 'U'

/-- Denso DTC text: `f"{prefix}{code & 0x3FFF:04X}"` — the domain letter
followed by the low 14 bits as 4 uppercase hex digits. -/
def densoDtcFormat (code : Nat) : String :=
  String.mk (densoDtcLetter code :: hex4Chars (code % 16384))

/-- Bosch DTC text: `f"P{code:04X}"` — always the letter `P` followed by the
full 16-bit code as hex digits (exactly 4 digits for `code < 2 ^ 16`). -/
def boschDtcFormat (code : Nat) : String :=
  String.mk ('P' :: hex4Chars code)

/-- Consecutive 2-byte chunks of a byte list; a trailing odd byte is dropped.
This is the `for i in range(start, stop, 2)` pairing with the `i + 1 < len`
guard used by both DTC parsers. -/
def dtcPairs : List Nat → List (Nat × Nat)
  | [] => []
  | [_] => []
  | a :: b :: rest => (a, b) :: dtcPairs rest

/-- Shared body of the DTC loops: big-endian 2-byte codes, zero codes
skipped, the rest formatted with `fmt`. -/
def dtcEntries (fmt : Nat → String) (bytes : List Nat) : List String :=
  (dtcPairs bytes).filterMap fun p =>
    let code := p.1 * 256 + p.2
    if code ≠ 0 then some (fmt code) else none

/-- `DensoSH705xProtocol.get_dtc_codes` response parsing: requires a
`RESP_DATA` frame of length > 3; `data = response[3:]`, `dtc_count = data[0]`,
then 2-byte codes from `data[1:]` limited to `dtc_count` entries. -/
def densoParseDtcResponse (resp : List Nat) : List String :=
  match resp with
  | r0 :: _ :: _ :: d0 :: drest =>
    if r0 = densoRespData then
      dtcEntries densoDtcFormat ((d0 :: drest).drop 1 |>.take (2 * d0))
    else []
  | _ => []

/-! ### Bosch ME17 protocol (`bosch_me17.py`) -/

/-- `BoschME17Protocol._build_kwp2000_frame`:
`[Length] [Data] [Checksum]` with `checksum = (sum(data) + length) & 0xFF`. -/
def boschBuildFrame (data : List Nat) : List Nat :=
  data.length :: data ++ [(data.sum + data.length) % 256]

/-- `BoschME17Protocol._read_response`: read one length byte, then
`Length + 1` bytes, and return the full raw response (length byte included)
whenever the read is complete — the checksum byte is read but never
verified. -/
def boschReadResponse (stream : List Nat) : Option (List Nat) :=
  match stream with
  | [] => none
  | len :: rest =>
    if len = 0 then none
    else
      let remaining := rest.take (len + 1)
      if remaining.length = len + 1 then some (len :: remaining) else none

/-- The response handling of `BoschME17Protocol.read_data`: any response
longer than 2 bytes yields `response[2:]`; anything else raises. -/
def boschDecodeReadResult : Option (List Nat) → Except String (List Nat)
  | some r =>
    if r.length > 2 then .ok (r.drop 2)
    else .error "Invalid response from ECU"
  | none => .error "Invalid response from ECU"

/-- `BoschME17Protocol.read_data`: no address validation, build
`[0x23] + addr(3) + len(2)`, send it, and decode the response.  Valid for
`address < 2 ^ 24` and `length < 2 ^ 16`. -/
def boschReadData (connected : Bool) (address length : Nat) (stream : List Nat) :
    List (List Nat) × Except String (List Nat) :=
  if !connected then ([], .error "Not connected to ECU")
  else
    let frame := boschBuildFrame (0x23 :: (pack24 address ++ pack16 length))
    ([frame], boschDecodeReadResult (boschReadResponse stream))

/-- The `response and self.RESPONSE_OK in response` test of
`BoschME17Protocol.write_data` / `connect` / `clear_dtc_codes`: the byte
`0x50` occurs anywhere in the raw response. -/
def boschHasOk : Option (List Nat) → Bool
  | some r => r.contains 0x50
  | none => false

/-- `BoschME17Protocol.write_data`: no address validation and no erase step —
build `[0x3D] + addr(3) + data`, send it, and report success iff the
response contains the `0x50` byte.  Valid for `address < 2 ^ 24`, byte-valued
`data`, and `len(data) + 4 ≤ 255`. -/
def boschWriteData (connected : Bool) (address : Nat) (data : List Nat)
    (stream : List Nat) : List (List Nat) × Except String Bool :=
  if !connected then ([], .error "Not connected to ECU")
  else
    let frame := boschBuildFrame (0x3D :: (pack24 address ++ data))
    ([frame], .ok (boschHasOk (boschReadResponse stream)))

/-- `BoschME17Protocol.get_dtc_codes` response parsing: takes
`data = response[2:]` of the raw response (so the trailing checksum byte is
parsed as DTC data) and formats every nonzero 2-byte big-endian code as
`f"P{code:04X}"`. -/
def boschParseDtcResponse (resp : List Nat) : List String :=
  if resp.length > 2 then dtcEntries boschDtcFormat (resp.drop 2) else []

/-- `BoschME17Protocol.get_dtc_codes` over a byte stream: send `[0x19, 0x02]`
and parse the response. -/
def boschGetDtcCodes (connected : Bool) (stream : List Nat) :
    List (List Nat) × List String :=
  if !connected then ([], [])
  else
    let frame := boschBuildFrame [0x19, 0x02]
    match boschReadResponse stream with
    | some r => ([frame], boschParseDtcResponse r)
    | none => ([frame], [])

/-- `DensoSH705xProtocol.get_dtc_codes` over a byte stream: send the DTC read
frame and parse the response (an unusable response yields the empty list). -/
def densoGetDtcCodes (connected : Bool) (stream : List Nat) :
    List (List Nat) × List String :=
  if !connected then ([], [])
  else
    let frame := densoBuildFrame densoCmdReadDtc []
    match (densoReadResponse stream).1 with
    | some r => ([frame], densoParseDtcResponse r)
    | none => ([frame], [])

/-! ### Siemens MSV protocol (`siemens_msv.py`), CAN write path -/

/-- The positive-response test of the Siemens CAN write: the first received
message must carry the response arbitration id `0x7E8` and have `0x6E`
(positive `WriteDataByIdentifier` response) as its second data byte. -/
def siemensCanWriteAck : List (Nat × List Nat) → Bool
  | [] => false
  | (rid, rdata) :: _ =>
    rid == 0x7E8 && decide (rdata.length ≥ 2) && rdata.getD 1 0 == 0x6E

/-- `SiemensMSVProtocol.write_data` over CAN.  A CAN message is a pair of
arbitration id and data bytes.  Payloads of more than 3 bytes hit the
`Multi-frame implementation would go here` branch, which sends nothing.
Returns the messages sent and the boolean result. -/
def siemensWriteDataCan (connected : Bool) (address : Nat) (data : List Nat)
    (bus : List (Nat × List Nat)) : List (List Nat) × Except String Bool :=
  if !connected then ([], .error "Not connected to ECU")
  else
    let dataId := (address >>> 8) &&& 0xFFFF
    let sent :=
      if data.length ≤ 3 then
        [[data.length + 3, 0x2E, (dataId >>> 8) &&& 0xFF, dataId &&& 0xFF] ++ data]
      else []
    (sent, .ok (siemensCanWriteAck bus))

/-! ### Address-range validation helper (`utils.validate_address_range`).
Defined over `Int` because Python computes `address + length - 1` with signed
arithmetic.  The per-family memory maps below are the `(start, end)` pairs of
`utils.DENSO_SH705X_MEMORY_MAP` (`end = start + size - 1`).  Nothing in the
protocol classes calls this function. -/

def validateAddressRange (address length : Int) (validRanges : List (Int × Int)) : Bool :=
  let endAddress := address + length - 1
  validRanges.any fun r =>
    decide (r.1 ≤ address) && decide (address ≤ r.2) &&
    decide (r.1 ≤ endAddress) && decide (endAddress ≤ r.2)

def densoMemoryRanges : List (Int × Int) :=
  [(0x00000000, 0x00000000 + 0x80000 - 1),
   (0x05FFFF00, 0x05FFFF00 + 0x4000 - 1),
   (0x00FE0000, 0x00FE0000 + 0x2000 - 1),
   (0x05FFE000, 0x05FFE000 + 0x1000 - 1)]

/-! ### Coordinator model (`ecu/__init__.py` `ECUManager`,
`bridge/__init__.py` `ECUBridge`).

Protocol objects perform I/O, so a connect/disconnect call takes the
underlying protocol outcome as an explicit `protocolOk` argument; the state
records, per family, whether a protocol is registered and its `connected`
flag, plus the manager's `_active_ecu` pointer and the bridge's `sessions`
dictionary (as a presence map). -/

inductive ECUFamily
  | bosch
  | siemens
  | denso
  deriving DecidableEq, Repr

structure ManagerState where
  registered : ECUFamily → Bool
  connected : ECUFamily → Bool
  active : Option ECUFamily

/-- Python's `ecu_type or self._active_ecu` defaulting idiom. -/
def orActive (t? : Option ECUFamily) (active : Option ECUFamily) : Option ECUFamily :=
  match t? with
  | some t => some t
  | none => active

/-- `ECUManager.connect_ecu`: fails if no protocol is registered; on a
successful `protocol.connect()` the protocol's `connected` flag is set and
the family becomes the active one. -/
def connectEcu (s : ManagerState) (t : ECUFamily) (protocolOk : Bool) :
    ManagerState × Bool :=
  if s.registered t then
    if protocolOk then
      ({ s with connected := fun u => if u = t then true else s.connected u,
                active := some t }, true)
    else (s, false)
  else (s, false)

/-- `ECUManager.disconnect_ecu`: target defaults to the active family; with
no target it returns `True` having done nothing.  On a successful
`protocol.disconnect()` the `connected` flag clears, and the active pointer
clears only when the target was the active family.  The third component
lists the protocols whose `disconnect` was invoked. -/
def disconnectEcu (s : ManagerState) (t? : Option ECUFamily) (protocolOk : Bool) :
    ManagerState × Bool × List ECUFamily :=
  match orActive t? s.active with
  | none => (s, true, [])
  | some t =>
    if s.registered t then
      let s1 := if protocolOk then
        { s with connected := fun u => if u = t then false else s.connected u }
        else s
      let s2 := if protocolOk ∧ s.active = some t then { s1 with active := none } else s1
      (s2, protocolOk, [t])
    else (s, true, [])

/-- `ECUManager.is_connected`: the target defaults to the active family; a
missing target or unregistered family reports `False`. -/
def isConnectedEcu (s : ManagerState) (t? : Option ECUFamily) : Bool :=
  match orActive t? s.active with
  | some t => s.registered t && s.connected t
  | none => false

/-- `ECUManager.get_active_protocol`: the registered protocol of the active
family, if any. -/
def getActiveProtocol (s : ManagerState) : Option ECUFamily :=
  match s.active with
  | some t => if s.registered t then some t else none
  | none => none

structure BridgeState where
  mgr : ManagerState
  sessions : ECUFamily → Bool

/-- `ECUBridge._get_protocol`: an explicit family looks the protocol up
directly; a family-less call goes through the active pointer. -/
def bridgeRoute (b : BridgeState) (t? : Option ECUFamily) : Option ECUFamily :=
  match t? with
  | some t => if b.mgr.registered t then some t else none
  | none => getActiveProtocol b.mgr

/-- `ECUBridge.connect`: on a successful manager connect, a session record is
created for the family. -/
def bridgeConnect (b : BridgeState) (t : ECUFamily) (protocolOk : Bool) :
    BridgeState × Bool :=
  let (m, success) := connectEcu b.mgr t protocolOk
  if success then
    match getActiveProtocol m with
    | some _ =>
      ({ mgr := m, sessions := fun u => if u = t then true else b.sessions u }, true)
    | none => ({ mgr := m, sessions := b.sessions }, false)
  else ({ mgr := m, sessions := b.sessions }, false)

/-- `ECUBridge.disconnect`: manager disconnect, then session cleanup keyed on
`ecu_type or self.manager._active_ecu` — evaluated after the manager call, so
it reads the already-updated active pointer. -/
def bridgeDisconnect (b : BridgeState) (t? : Option ECUFamily) (protocolOk : Bool) :
    BridgeState × Bool × List ECUFamily :=
  let (m, success, calls) := disconnectEcu b.mgr t? protocolOk
  let sessions :=
    match orActive t? m.active with
    | some t => if b.sessions t then (fun u => if u = t then false else b.sessions u)
                else b.sessions
    | none => b.sessions
  ({ mgr := m, sessions := sessions }, success, calls)

/-- `ECUBridge.read_memory`: raises `"No active ECU connection"` when routing
finds no protocol; otherwise delegates to the protocol's `read_data`, whose
outcome is abstracted as `protocolResult`. -/
def bridgeReadMemory (b : BridgeState) (t? : Option ECUFamily)
    (protocolResult : List Nat) : Except String (List Nat) :=
  match bridgeRoute b t? with
  | none => .error "No active ECU connection"
  | some _ => .ok protocolResult

/-- `ECUBridge.get_diagnostic_codes`: returns the empty list (a success
value, not an exception) when routing finds no protocol. -/
def bridgeGetDiagnosticCodes (b : BridgeState) (t? : Option ECUFamily)
    (protocolResult : List String) : Except String (List String) :=
  match bridgeRoute b t? with
  | none => .ok []
  | some _ => .ok protocolResult

/-- The bridge state right after `ECUBridge.__init__`: all three protocol
families registered, none connected, no active family, no sessions. -/
def initialBridgeState : BridgeState :=
  { mgr := { registered := fun _ => true, connected := fun _ => false, active := none },
    sessions := fun _ => false }

/-! ### Helper lemmas about the Denso codec -/

/-- Parsing an exact wire image `STX LEN fd c e`: accepted exactly when the
trailer is ETX and the checksum matches. -/
theorem densoReadResponse_exact (fd : List Nat) (c e : Nat) (h : fd.length ≠ 0) :
    densoReadResponse (2 :: fd.length :: (fd ++ [c, e])) =
      ((if e = 3 then if c = densoChecksum fd then some fd else none else none),
        []) := by
  have hlen : (fd ++ [c, e]).length = fd.length + 2 := by simp
  have htake : (fd ++ [c, e]).take (fd.length + 2) = fd ++ [c, e] := by
    rw [← hlen, List.take_length]
  have hdropAll : (fd ++ [c, e]).drop (fd.length + 2) = [] := by
    rw [← hlen, List.drop_length]
  have htakeFd : (fd ++ [c, e]).take fd.length = fd := List.take_left fd [c, e]
  have hdropFd : (fd ++ [c, e]).drop fd.length = [c, e] := List.drop_left fd [c, e]
  unfold densoReadResponse densoHuntStx
  simp only [if_pos rfl, htake, hdropAll, htakeFd, hdropFd, hlen, h, if_neg h,
    if_true, ite_self]
  split
  · simp_all
  · by_cases he : e = 3
    · by_cases hc : c = densoChecksum fd
      · simp [he, hc]
      · simp [he, hc]
    · simp [he]

/-- Replacing one element: the new sum plus the old element equals the old
sum plus the new element. -/
theorem sum_set_add (l : List Nat) (j b : Nat) (h : j < l.length) :
    (l.set j b).sum + l.getD j 0 = l.sum + b := by
  induction l generalizing j with
  | nil => simp at h
  | cons a t ih =>
    cases j with
    | zero => simp [List.getD]; omega
    | succ j =>
      have hj : j < t.length := by simpa using h
      have := ih j hj
      simp [List.getD] at this ⊢
      omega

/-- Two byte lists whose sums differ mod 256 have different Denso
checksums. -/
theorem densoChecksum_ne_of_sum_ne (s t : Nat) (h : s % 256 ≠ t % 256) :
    (256 - s % 256) % 256 ≠ (256 - t % 256) % 256 := by
  omega

/-- Denso encode/decode round trip: a built frame parses back to exactly its
`frame_data` (opcode followed by payload), consuming the whole stream. -/
theorem densoReadResponse_densoBuildFrame (cmd : Nat) (data : List Nat) :
    densoReadResponse (densoBuildFrame cmd data) = (some (cmd :: data), []) := by
  have hfd : (cmd :: data).length ≠ 0 := by simp
  have hframe : densoBuildFrame cmd data =
      2 :: (cmd :: data).length ::
        ((cmd :: data) ++ [densoChecksum (cmd :: data), 3]) := rfl
  rw [hframe, densoReadResponse_exact _ _ _ hfd]
  simp

/-- Corrupting any single byte of a built Denso frame at a position other
than the STX and LEN bytes (frame data, checksum, or ETX) makes the decoder
reject the frame. -/
theorem densoReadResponse_set_ne (cmd : Nat) (data : List Nat) (i b : Nat)
    (hc : cmd < 256) (hd : ∀ x ∈ data, x < 256) (hb : b < 256)
    (h2 : 2 ≤ i) (hi : i < (densoBuildFrame cmd data).length)
    (hne : (densoBuildFrame cmd data).getD i 0 ≠ b) :
    (densoReadResponse ((densoBuildFrame cmd data).set i b)).1 = none := by
  set fd := cmd :: data with hfddef
  have hfd : fd.length ≠ 0 := by simp [hfddef]
  obtain ⟨j, rfl⟩ : ∃ j, i = j + 2 := ⟨i - 2, by omega⟩
  have hframe : densoBuildFrame cmd data =
      2 :: fd.length :: (fd ++ [densoChecksum fd, 3]) := rfl
  have hjlt : j < fd.length + 2 := by
    have := hi
    rw [hframe] at this
    simp at this
    omega
  have hset : (densoBuildFrame cmd data).set (j + 2) b =
      2 :: fd.length :: ((fd ++ [densoChecksum fd, 3]).set j b) := by
    rw [hframe]; rfl
  have hgetD : (densoBuildFrame cmd data).getD (j + 2) 0 =
      (fd ++ [densoChecksum fd, 3]).getD j 0 := by
    rw [hframe]; rfl
  rcases Nat.lt_or_ge j fd.length with hj | hj
  · -- a frame-data byte is corrupted: the recomputed checksum changes
    have hsetApp : (fd ++ [densoChecksum fd, 3]).set j b =
        fd.set j b ++ [densoChecksum fd, 3] := by
      rw [List.set_append, if_pos hj]
    have hlenSet : (fd.set j b).length = fd.length := List.length_set ..
    have hold : (fd ++ [densoChecksum fd, 3]).getD j 0 = fd.getD j 0 :=
      List.getD_append _ _ _ _ hj
    have holdmem : fd.getD j 0 ∈ fd := by
      rw [List.getD_eq_getElem _ _ hj]
      exact List.getElem_mem ..
    have holdlt : fd.getD j 0 < 256 := by
      rcases List.mem_cons.mp holdmem with h | h
      · omega
      · exact hd _ h
    have hsum := sum_set_add fd j b hj
    have hbne : fd.getD j 0 ≠ b := by
      intro hcontra
      exact hne (by rw [hgetD, hold, hcontra])
    have hchk : densoChecksum fd ≠ densoChecksum (fd.set j b) := by
      unfold densoChecksum
      omega
    rw [hset, hsetApp, ← hlenSet]
    rw [densoReadResponse_exact _ _ _ (by omega)]
    simp [hchk]
  · -- the checksum byte or the ETX byte is corrupted
    rcases Nat.lt_or_ge j (fd.length + 1) with hj1 | hj1
    · -- checksum byte
      have hjeq : j = fd.length := by omega
      have hsetApp : (fd ++ [densoChecksum fd, 3]).set j b = fd ++ [b, 3] := by
        rw [List.set_append, if_neg (by omega), hjeq]
        simp
      have hold : (fd ++ [densoChecksum fd, 3]).getD j 0 = densoChecksum fd := by
        rw [hjeq]
        rw [List.getD_append_right _ _ _ _ (by omega)]
        simp
      have hbne : densoChecksum fd ≠ b := by
        intro hcontra
        exact hne (by rw [hgetD, hold, hcontra])
      have hbne2 : ¬b = densoChecksum fd := fun hcontra => hbne hcontra.symm
      rw [hset, hsetApp, densoReadResponse_exact _ _ _ hfd]
      simp [hbne2]
    · -- ETX byte
      have hjeq : j = fd.length + 1 := by omega
      have hsetApp : (fd ++ [densoChecksum fd, 3]).set j b =
          fd ++ [densoChecksum fd, b] := by
        rw [List.set_append, if_neg (by omega), hjeq]
        simp
      have hold : (fd ++ [densoChecksum fd, 3]).getD j 0 = 3 := by
        rw [hjeq]
        rw [List.getD_append_right _ _ _ _ (by omega)]
        simp
      have hbne : b ≠ 3 := by
        intro hcontra
        exact hne (by rw [hgetD, hold, hcontra])
      rw [hset, hsetApp, densoReadResponse_exact _ _ _ hfd]
      simp [hbne]

/-- Bosch encode/decode round trip: a built frame is returned whole by the
reader (for a nonempty payload of at most 255 bytes). -/
theorem boschReadResponse_boschBuildFrame (data : List Nat) (h : data ≠ []) :
    boschReadResponse (boschBuildFrame data) = some (boschBuildFrame data) := by
  have hlen : data.length ≠ 0 := by simpa using fun hh => h (List.length_eq_zero.mp hh)
  have happ : (data ++ [(data.sum + data.length) % 256]).length = data.length + 1 := by
    simp
  have htake : (data ++ [(data.sum + data.length) % 256]).take (data.length + 1) =
      data ++ [(data.sum + data.length) % 256] := by
    rw [← happ, List.take_length]
  unfold boschReadResponse boschBuildFrame
  simp [hlen, htake, happ]

/-! ### Helper lemmas: sector alignment and DTC parsing -/

/-- Clearing the low `n` bits equals rounding down to a multiple of `2 ^ n`. -/
theorem ldiff_two_pow_sub_one (a n : Nat) :
    Nat.ldiff a (2 ^ n - 1) = a - a % 2 ^ n := by
  have hsub : a - a % 2 ^ n = (a >>> n) <<< n := by
    rw [Nat.shiftRight_eq_div_pow, Nat.shiftLeft_eq]
    have hdm := Nat.div_add_mod a (2 ^ n)
    have hcomm : a / 2 ^ n * 2 ^ n = 2 ^ n * (a / 2 ^ n) := Nat.mul_comm ..
    omega
  rw [hsub]
  apply Nat.eq_of_testBit_eq
  intro i
  rw [Nat.testBit_ldiff, Nat.testBit_two_pow_sub_one, Nat.testBit_shiftLeft,
    Nat.testBit_shiftRight]
  by_cases hin : i < n
  · simp [hin, Nat.not_le.mpr hin]
  · have hge : i ≥ n := Nat.not_lt.mp hin
    have : n + (i - n) = i := by omega
    simp [hin, hge, this]

/-- The source's `address & ~(sector_size - 1)` agrees with the executable
`densoSectorAddress`. -/
theorem densoSectorAddressBits_eq (address : Nat) :
    densoSectorAddressBits address = Int.ofNat (densoSectorAddress address) := by
  have hmask : (~~~ ((densoSectorSize : Int) - 1)) = Int.negSucc 4095 := by decide
  have hland : Int.land (Int.ofNat address) (Int.negSucc 4095) =
      Int.ofNat (Nat.ldiff address 4095) := rfl
  unfold densoSectorAddressBits
  rw [hmask, hland]
  have h4095 : (4095 : Nat) = 2 ^ 12 - 1 := by norm_num
  have h4096 : densoSectorSize = 2 ^ 12 := by norm_num [densoSectorSize]
  unfold densoSectorAddress
  rw [h4095, h4096, ldiff_two_pow_sub_one]

/-- Components of pairs produced by `dtcPairs` are elements of the byte
list. -/
theorem dtcPairs_mem : ∀ (l : List Nat) (p : Nat × Nat), p ∈ dtcPairs l →
    p.1 ∈ l ∧ p.2 ∈ l
  | [], p, h => by simp [dtcPairs] at h
  | [a], p, h => by simp [dtcPairs] at h
  | a :: b :: rest, p, h => by
    rw [dtcPairs] at h
    rcases List.mem_cons.mp h with h1 | h1
    · subst h1
      exact ⟨List.mem_cons_self .., List.mem_cons_of_mem _ (List.mem_cons_self ..)⟩
    · have := dtcPairs_mem rest p h1
      exact ⟨List.mem_cons_of_mem _ (List.mem_cons_of_mem _ this.1),
        List.mem_cons_of_mem _ (List.mem_cons_of_mem _ this.2)⟩

/-- Every string emitted by the shared DTC loop comes from some nonzero
2-byte big-endian code of the byte list. -/
theorem dtcEntries_mem (fmt : Nat → String) (bytes : List Nat) (s : String)
    (h : s ∈ dtcEntries fmt bytes) :
    ∃ p ∈ dtcPairs bytes, p.1 * 256 + p.2 ≠ 0 ∧ s = fmt (p.1 * 256 + p.2) := by
  unfold dtcEntries at h
  rcases List.mem_filterMap.mp h with ⟨p, hp, hf⟩
  simp only at hf
  split at hf
  · exact ⟨p, hp, by assumption, (Option.some.inj hf).symm⟩
  · cases hf

/-! ### Claim theorems -/

/-- C1, counterexample: the Denso address `0x00100000` with length 16 lies in
no region of the Denso memory map, yet `read_data` on a connected session
sends a frame instead of failing `AddressOutOfRange` with zero transport
writes. -/
theorem c1_counterexample :
    validateAddressRange 0x00100000 16 densoMemoryRanges = false ∧
    (densoReadData true 0x00100000 16 []).writes ≠ [] := by
  decide

/-- C1, amended: no protocol consults the memory-region table and none can
fail `AddressOutOfRange`.  On a connected session, whatever the address:
Denso `read_data` and Bosch `read_data` send exactly one command frame;
Denso `write_data` always sends its write frame; Bosch `write_data` sends
exactly its write frame; and the Siemens CAN `write_data` sends its
single-frame write whenever the payload fits in one frame (at most 3 bytes —
larger payloads are dropped by the unimplemented multi-frame branch, a
segmentation gap independent of the address).  The numeric bounds are the
`struct.pack`/`to_bytes` preconditions. -/
theorem c1_amended_no_validation :
    (∀ address length stream, address < 2 ^ 32 → length < 2 ^ 16 →
      (densoReadData true address length stream).writes.length = 1) ∧
    (∀ address length stream, address < 2 ^ 24 → length < 2 ^ 16 →
      (boschReadData true address length stream).1.length = 1) ∧
    (∀ address data stream, address < 2 ^ 32 → data.length + 7 ≤ 255 →
      densoBuildFrame (if address < densoRamBase then densoCmdWriteRom else densoCmdWriteRam)
          (pack32 address ++ pack16 data.length ++ data)
        ∈ (densoWriteData true address data stream).writes) ∧
    (∀ address data stream, address < 2 ^ 24 → data.length + 4 ≤ 255 →
      (boschWriteData true address data stream).1.length = 1) ∧
    (∀ address data bus, data.length ≤ 3 →
      ((siemensWriteDataCan true address data bus).1).length = 1) := by
  refine ⟨fun _ _ _ _ _ => rfl, fun _ _ _ _ _ => rfl, ?_, fun _ _ _ _ _ => rfl, ?_⟩
  · intro address data stream _ _
    by_cases hrom : address < densoRamBase
    · rw [if_pos hrom]
      unfold densoWriteData
      rw [if_pos hrom]
      split
      · simp_all
      · dsimp only
        split
        · split <;> simp
        · simp_all
    · rw [if_neg hrom]
      unfold densoWriteData
      rw [if_neg hrom]
      split
      · simp_all
      · dsimp only
        split
        · simp_all [densoCmdWriteRam, densoCmdWriteRom]
        · split <;> simp
  · intro address data bus h
    unfold siemensWriteDataCan
    split
    · simp_all
    · dsimp only
      simp [h]

/-- C1, witness for the amended theorem at the out-of-map address
`0x00100000` (in no region of any family's map). -/
theorem c1_witness :
    0x00100000 < 2 ^ 32 ∧ 16 < 2 ^ 16 ∧
    (densoReadData true 0x00100000 16 []).writes.length = 1 ∧
    (boschReadData true 0x00100000 16 []).1.length = 1 ∧
    densoBuildFrame (if 0x00100000 < densoRamBase then densoCmdWriteRom else densoCmdWriteRam)
        (pack32 0x00100000 ++ pack16 ([0xAB] : List Nat).length ++ [0xAB])
      ∈ (densoWriteData true 0x00100000 [0xAB] []).writes ∧
    (boschWriteData true 0x00100000 [0xAB] []).1.length = 1 ∧
    ((siemensWriteDataCan true 0x00100000 [1, 2, 3] []).1).length = 1 :=
  ⟨by decide, by decide,
    c1_amended_no_validation.1 0x00100000 16 [] (by decide) (by decide),
    c1_amended_no_validation.2.1 0x00100000 16 [] (by decide) (by decide),
    c1_amended_no_validation.2.2.1 0x00100000 [0xAB] [] (by decide) (by decide),
    c1_amended_no_validation.2.2.2.1 0x00100000 [0xAB] [] (by decide) (by decide),
    c1_amended_no_validation.2.2.2.2 0x00100000 [1, 2, 3] [] (by decide)⟩

/-- C2, counterexample: writing `[0x11]` to ROM address `0x1050` with the
device answering NAK to the erase still sends the write frame (three frames
are written: erase, write, checksum request) and even reports success. -/
theorem c2_counterexample :
    (densoEraseSector 0x1050 [2, 1, 0x15, 235, 3]).1 = false ∧
    (densoWriteData true 0x1050 [0x11]
        ([2, 1, 0x15, 235, 3] ++ [2, 1, 6, 250, 3] ++
          [2, 5, 0x80, 0x00, 0x02, 0xBE, 0xEF, 209, 3])).writes.length = 3 ∧
    (densoWriteData true 0x1050 [0x11]
        ([2, 1, 0x15, 235, 3] ++ [2, 1, 6, 250, 3] ++
          [2, 5, 0x80, 0x00, 0x02, 0xBE, 0xEF, 209, 3])).result = .ok true := by
  decide

/-- C2, amended: for a ROM-class write the erase frame for the aligned sector
is sent first and the write frame is sent right after it, regardless of the
erase outcome (an erase failure is only logged and does not abort the
write). -/
theorem c2_amended_write_sent_regardless (address : Nat) (data : List Nat)
    (stream : List Nat) (hrom : address < densoRamBase) (h32 : address < 2 ^ 32)
    (hlen : data.length + 7 ≤ 255) :
    (densoWriteData true address data stream).writes.take 2 =
      [densoBuildFrame densoCmdEraseSector (pack32 (densoSectorAddress address)),
        densoBuildFrame densoCmdWriteRom (pack32 address ++ pack16 data.length ++ data)] := by
  unfold densoWriteData
  rw [if_pos hrom]
  split
  · simp_all
  · dsimp only
    split
    · split <;> rfl
    · simp_all

/-- C2, witness for the amended theorem. -/
theorem c2_witness :
    0x2000 < densoRamBase ∧ (0x2000 : Nat) < 2 ^ 32 ∧ ([0x7] : List Nat).length + 7 ≤ 255 ∧
    (densoWriteData true 0x2000 [0x7] []).writes.take 2 =
      [densoBuildFrame densoCmdEraseSector (pack32 (densoSectorAddress 0x2000)),
        densoBuildFrame densoCmdWriteRom (pack32 0x2000 ++ pack16 ([0x7] : List Nat).length ++ [0x7])] :=
  ⟨by decide, by decide, by decide,
    c2_amended_write_sent_regardless 0x2000 [0x7] [] (by decide) (by decide) (by decide)⟩

/-- C3, code bug: a write that is ACKed reports success whatever checksum
word the device returns — here the same RAM write succeeds both when the
device reports checksum `0xBEEF` and when it reports `0x0000`, two different
words, so the "verification" compares nothing (the source's
`_verify_checksum` returns `True` for any `RESP_DATA` response of length at
least 5, as its own comment admits). -/
theorem c3_code_bug :
    (densoWriteData true 0x05FFFF00 [0xAA]
        ([2, 1, 6, 250, 3] ++ [2, 5, 0x80, 0x00, 0x02, 0xBE, 0xEF, 209, 3])).result
      = .ok true ∧
    (densoWriteData true 0x05FFFF00 [0xAA]
        ([2, 1, 6, 250, 3] ++ [2, 5, 0x80, 0x00, 0x02, 0x00, 0x00, 126, 3])).result
      = .ok true ∧
    (0xBE * 256 + 0xEF : Nat) ≠ 0x00 * 256 + 0x00 := by
  decide

/-- C8: for every ROM-class write the first frame sent is the sector erase
for the address with its low 12 bits cleared — `address & ~(sector_size-1)`
equals `sectorSize * (address / sectorSize)`. -/
theorem c8_erase_aligned (address : Nat) (data : List Nat) (stream : List Nat)
    (hrom : address < densoRamBase) (h32 : address < 2 ^ 32) :
    (densoWriteData true address data stream).writes.head? =
      some (densoBuildFrame densoCmdEraseSector (pack32 (densoSectorAddress address))) ∧
    densoSectorAddressBits address = Int.ofNat (densoSectorAddress address) ∧
    densoSectorAddress address = densoSectorSize * (address / densoSectorSize) := by
  refine ⟨?_, densoSectorAddressBits_eq address, ?_⟩
  · unfold densoWriteData
    rw [if_pos hrom]
    split
    · simp_all
    · dsimp only
      split
      · split <;> rfl
      · simp_all
  · unfold densoSectorAddress densoSectorSize
    omega

/-- C8, witness: a write to `0x1050` erases at `0x1000`, not `0x1050`. -/
theorem c8_witness :
    0x1050 < densoRamBase ∧ (0x1050 : Nat) < 2 ^ 32 ∧
    (densoWriteData true 0x1050 [0x11] []).writes.head? =
      some (densoBuildFrame densoCmdEraseSector (pack32 (densoSectorAddress 0x1050))) ∧
    densoSectorAddress 0x1050 = 0x1000 :=
  ⟨by decide, by decide,
    (c8_erase_aligned 0x1050 [0x11] [] (by decide) (by decide)).1,
    by decide⟩

/-- Masking with `2 ^ n - 1` is reduction mod `2 ^ n`. -/
theorem land_two_pow_sub_one (a n : Nat) : a &&& (2 ^ n - 1) = a % 2 ^ n := by
  apply Nat.eq_of_testBit_eq
  intro i
  rw [Nat.testBit_land, Nat.testBit_two_pow_sub_one, Nat.testBit_mod_two_pow]
  exact Bool.and_comm ..

/-- C9: the Siemens CAN write transmits a single frame
`[len+3, 0x2E, dataId_hi, dataId_lo] ++ data` when the payload has at most 3
bytes, and transmits nothing at all for longer payloads (the multi-frame
branch is an unimplemented `pass`). -/
theorem c9_multiframe_writes_dropped (address : Nat) (data : List Nat)
    (bus : List (Nat × List Nat)) :
    (siemensWriteDataCan true address data bus).1 =
      if data.length ≤ 3 then
        [[data.length + 3, 0x2E, address / 65536 % 256, address / 256 % 256] ++ data]
      else [] := by
  have h8 : address >>> 8 = address / 256 := by
    rw [Nat.shiftRight_eq_div_pow]
  have hid : (address >>> 8) &&& 0xFFFF = address / 256 % 65536 := by
    rw [h8, show (0xFFFF : Nat) = 2 ^ 16 - 1 from by norm_num, land_two_pow_sub_one]
    norm_num
  have hhiShift : (address / 256 % 65536) >>> 8 = address / 256 % 65536 / 256 := by
    rw [Nat.shiftRight_eq_div_pow]
  have hhi : ((address / 256 % 65536) >>> 8) &&& 0xFF = address / 65536 % 256 := by
    rw [hhiShift, show (0xFF : Nat) = 2 ^ 8 - 1 from by norm_num, land_two_pow_sub_one]
    norm_num
    omega
  have hlo : (address / 256 % 65536) &&& 0xFF = address / 256 % 256 := by
    rw [show (0xFF : Nat) = 2 ^ 8 - 1 from by norm_num, land_two_pow_sub_one]
    norm_num
  unfold siemensWriteDataCan
  split
  · simp_all
  · dsimp only
    rw [hid, hhi, hlo]

/-- C10: the coordinator's family-less disconnect with no active family
returns `True`, calls no protocol `disconnect` (so no transport I/O), and
leaves the session table and the active pointer untouched. -/
theorem c10_disconnect_no_active (b : BridgeState) (protocolOk : Bool)
    (h : b.mgr.active = none) :
    bridgeDisconnect b none protocolOk = (b, true, []) := by
  unfold bridgeDisconnect disconnectEcu orActive
  rw [h]
  simp [h]

/-- C10, witness at the freshly initialized bridge. -/
theorem c10_witness :
    initialBridgeState.mgr.active = none ∧
    bridgeDisconnect initialBridgeState none true = (initialBridgeState, true, []) :=
  ⟨rfl, c10_disconnect_no_active initialBridgeState true rfl⟩

/-- C4, counterexample: flipping a single byte (the checksum byte, from 2 to
0) of the Bosch frame for payload `[0x01]` is still accepted by the Bosch
reader, which never verifies the checksum — the claim fails for the Bosch
codec. -/
theorem c4_counterexample :
    boschBuildFrame [0x01] = [1, 1, 2] ∧
    (boschBuildFrame [0x01]).set 2 0 ≠ boschBuildFrame [0x01] ∧
    boschReadResponse ((boschBuildFrame [0x01]).set 2 0) = some [1, 1, 0] := by
  decide

/-- C4, amended: the Denso codec round-trips (`decode (encode cmd payload)`
returns `cmd :: payload`) and rejects any single-byte corruption at the
positions after STX and LEN (frame data, checksum, ETX); the Bosch codec
round-trips but performs no checksum validation, so corrupted frames can be
accepted (see the counterexample). -/
theorem c4_amended_codec (cmd : Nat) (data : List Nat)
    (hc : cmd < 256) (hd : ∀ x ∈ data, x < 256) (hl : data.length + 1 ≤ 255) :
    densoReadResponse (densoBuildFrame cmd data) = (some (cmd :: data), []) ∧
    (∀ i b, 2 ≤ i → i < (densoBuildFrame cmd data).length → b < 256 →
      (densoBuildFrame cmd data).getD i 0 ≠ b →
      (densoReadResponse ((densoBuildFrame cmd data).set i b)).1 = none) ∧
    (∀ payload : List Nat, payload ≠ [] → payload.length ≤ 255 →
      boschReadResponse (boschBuildFrame payload) = some (boschBuildFrame payload)) :=
  ⟨densoReadResponse_densoBuildFrame cmd data,
    fun i b h2 hi hb hne => densoReadResponse_set_ne cmd data i b hc hd hb h2 hi hne,
    fun payload hp _ => boschReadResponse_boschBuildFrame payload hp⟩

/-- C4, witness: the Denso frame for opcode 6, payload `[1]` round-trips;
flipping its checksum byte (position 4, value 249) to 0 is rejected; the
Bosch frame for payload `[0x50]` round-trips. -/
theorem c4_witness :
    densoReadResponse (densoBuildFrame 6 [1]) = (some [6, 1], []) ∧
    (densoReadResponse ((densoBuildFrame 6 [1]).set 4 0)).1 = none ∧
    boschReadResponse (boschBuildFrame [0x50]) = some (boschBuildFrame [0x50]) := by
  refine ⟨(c4_amended_codec 6 [1] (by decide) (by decide) (by decide)).1, ?_, ?_⟩
  · exact (c4_amended_codec 6 [1] (by decide) (by decide) (by decide)).2.1 4 0
      (by decide) (by decide) (by decide) (by decide)
  · exact (c4_amended_codec 6 [1] (by decide) (by decide) (by decide)).2.2 [0x50]
      (by decide) (by decide)

/-- C5, counterexample: the Bosch parser formats the nonzero code `0x4001`
as "P4001" — no domain-letter mapping and no 14-bit truncation — where the
claim's format (as the Denso formatter implements it) is "C0001"; the raw
response `[4, 0x59, 0x40, 0x01, 0x00, 0x9E]` is a valid Bosch frame whose
codes 0x4001 and 0x009E are both emitted with the `P` prefix. -/
theorem c5_counterexample :
    (boschGetDtcCodes true [4, 0x59, 0x40, 0x01, 0x00, 0x9E]).2 = ["P4001", "P009E"] ∧
    densoDtcFormat 0x4001 = "C0001" ∧
    ("P4001" : String) ≠ "C0001" := by
  decide

/-- C6, code bug: on a checksum-corrupted frame followed by a valid frame,
`read_data` raises "No response from ECU" after a single `_read_response`
attempt — the valid frame is still unread in the stream and a retry would
have succeeded — although `ECUConfig.retries` defaults to 3 and the code
comments claim "Read response with retries". -/
theorem c6_code_bug :
    (densoReadData true 0x1000 16 ([2, 1, 6, 0, 3] ++ [2, 1, 6, 250, 3])).result
      = .error "No response from ECU" ∧
    (densoReadResponse (densoReadData true 0x1000 16
        ([2, 1, 6, 0, 3] ++ [2, 1, 6, 250, 3])).leftover).1 = some [6] ∧
    ecuConfigDefaultRetries = 3 := by
  decide

/-- C5, amended: every string emitted by the Denso DTC parser is the claim's
format — domain letter from the top two bits, low 14 bits as 4 uppercase hex
digits — for some nonzero 16-bit code, and code 0 is never emitted; the
Bosch parser instead emits `P` plus the hex digits of the full 16-bit code
(again never for code 0). -/
theorem c5_amended_formats (resp : List Nat) (hb : ∀ x ∈ resp, x < 256) :
    (∀ s ∈ densoParseDtcResponse resp, ∃ code, code ≠ 0 ∧ code < 65536 ∧
      s = String.mk (densoDtcLetter code :: hex4Chars (code % 16384))) ∧
    (∀ s ∈ boschParseDtcResponse resp, ∃ code, code ≠ 0 ∧ code < 65536 ∧
      s = String.mk ('P' :: hex4Chars code)) := by
  constructor
  · intro s hs
    unfold densoParseDtcResponse at hs
    split at hs
    · rename_i r0 r1 r2 d0 drest
      split at hs
      · obtain ⟨p, hp, hcode, hfmt⟩ := dtcEntries_mem _ _ _ hs
        obtain ⟨h1, h2⟩ := dtcPairs_mem _ _ hp
        have h1d : p.1 ∈ drest := List.mem_of_mem_take (by simpa using h1)
        have h2d : p.2 ∈ drest := List.mem_of_mem_take (by simpa using h2)
        have hp1 : p.1 < 256 := hb _ (by simp [h1d])
        have hp2 : p.2 < 256 := hb _ (by simp [h2d])
        exact ⟨p.1 * 256 + p.2, hcode, by omega, hfmt⟩
      · simp at hs
    · simp at hs
  · intro s hs
    unfold boschParseDtcResponse at hs
    split at hs
    · obtain ⟨p, hp, hcode, hfmt⟩ := dtcEntries_mem _ _ _ hs
      obtain ⟨h1, h2⟩ := dtcPairs_mem _ _ hp
      have hp1 : p.1 < 256 := hb _ (List.mem_of_mem_drop h1)
      have hp2 : p.2 < 256 := hb _ (List.mem_of_mem_drop h2)
      exact ⟨p.1 * 256 + p.2, hcode, by omega, hfmt⟩
    · simp at hs

/-- C5, witness: the Denso response carrying the single code `0x4001`
produces exactly the claim-format string "C0001". -/
theorem c5_witness :
    (∀ x ∈ [0x80, 0, 3, 1, 0x40, 0x01], x < 256) ∧
    "C0001" ∈ densoParseDtcResponse [0x80, 0, 3, 1, 0x40, 0x01] ∧
    (∃ code, code ≠ 0 ∧ code < 65536 ∧
      "C0001" = String.mk (densoDtcLetter code :: hex4Chars (code % 16384))) :=
  ⟨by decide, by decide,
    (c5_amended_formats [0x80, 0, 3, 1, 0x40, 0x01] (by decide)).1 "C0001" (by decide)⟩

/-- Bridge state after `connect(bosch)` then `connect(denso)` on the fresh
bridge, both protocol connects succeeding. -/
def c7AfterConnects : BridgeState :=
  (bridgeConnect (bridgeConnect initialBridgeState .bosch true).1 .denso true).1

/-- Bridge state after then disconnecting the active family (denso). -/
def c7AfterDisconnect : BridgeState :=
  (bridgeDisconnect c7AfterConnects (some .denso) true).1

/-- C7, counterexample: after `connect(A)`, `connect(B)`,
`disconnect(B)`, the active pointer is cleared and A stays connected — but
the family-less `get_diagnostic_codes` call does not fail `NoActiveSession`:
it returns the success value `ok []` (only `read_memory`/`write_memory`
raise). -/
theorem c7_counterexample :
    c7AfterDisconnect.mgr.active = none ∧
    isConnectedEcu c7AfterDisconnect.mgr (some .bosch) = true ∧
    bridgeGetDiagnosticCodes c7AfterDisconnect none ["P0100"] = .ok [] := by
  decide

/-- C7, amended: after `connect(A)` then `connect(B)` both families report
connected and family-less calls route to B; after `disconnect(B)` the
active pointer is cleared (it does not revert to A, which stays connected),
family-less routing finds nothing, `read_memory` fails
"No active ECU connection", and `get_diagnostic_codes` returns the empty
success value instead of failing. -/
theorem c7_amended_routing (b : BridgeState) (A B : ECUFamily)
    (hA : b.mgr.registered A = true) (hB : b.mgr.registered B = true)
    (hAB : A ≠ B) :
    isConnectedEcu ((bridgeConnect (bridgeConnect b A true).1 B true).1).mgr (some A) = true ∧
    isConnectedEcu ((bridgeConnect (bridgeConnect b A true).1 B true).1).mgr (some B) = true ∧
    bridgeRoute ((bridgeConnect (bridgeConnect b A true).1 B true).1) none = some B ∧
    ((bridgeDisconnect ((bridgeConnect (bridgeConnect b A true).1 B true).1) (some B) true).1).mgr.active = none ∧
    bridgeRoute ((bridgeDisconnect ((bridgeConnect (bridgeConnect b A true).1 B true).1) (some B) true).1) none = none ∧
    bridgeReadMemory ((bridgeDisconnect ((bridgeConnect (bridgeConnect b A true).1 B true).1) (some B) true).1) none [] = .error "No active ECU connection" ∧
    isConnectedEcu ((bridgeDisconnect ((bridgeConnect (bridgeConnect b A true).1 B true).1) (some B) true).1).mgr (some A) = true ∧
    (∀ res, bridgeGetDiagnosticCodes ((bridgeDisconnect ((bridgeConnect (bridgeConnect b A true).1 B true).1) (some B) true).1) none res = .ok []) := by
  unfold bridgeConnect bridgeDisconnect connectEcu disconnectEcu bridgeRoute
    getActiveProtocol isConnectedEcu bridgeReadMemory bridgeGetDiagnosticCodes orActive
  simp [hA, hB, hAB]
  exact ⟨rfl, fun res => rfl⟩

/-- C7, witness: the amended routing facts at the concrete run
connect(bosch); connect(denso); disconnect(denso). -/
theorem c7_witness :
    isConnectedEcu c7AfterConnects.mgr (some .bosch) = true ∧
    isConnectedEcu c7AfterConnects.mgr (some .denso) = true ∧
    bridgeRoute c7AfterConnects none = some .denso ∧
    c7AfterDisconnect.mgr.active = none ∧
    bridgeRoute c7AfterDisconnect none = none ∧
    bridgeReadMemory c7AfterDisconnect none [] = .error "No active ECU connection" ∧
    isConnectedEcu c7AfterDisconnect.mgr (some .bosch) = true ∧
    (∀ res, bridgeGetDiagnosticCodes c7AfterDisconnect none res = .ok []) :=
  c7_amended_routing initialBridgeState .bosch .denso rfl rfl (by decide)
